import Mathlib

set_option allowUnsafeReducibility true
attribute [local semireducible] Rat.add Rat.sub Rat.mul Rat.inv Rat.ofScientific

/-!
Shallow embedding of the MRPT reactive navigator core
(`CAbstractNavigator`, `CWaypointsNavigator`, fragments of
`CAbstractPTGBasedReactive`), with machine-checked statements about its
state machine, waypoint sequencer and reactive-pipeline fragments.

Modelling conventions:
* All scalars (metres, seconds) are `ℚ`.  The C++ code compares Euclidean
  distances `d < r`; since every distance here is a square root of a
  rational, we carry squared distances and compare via
  `0 < r ∧ d² < r²`, which is equivalent for `d ≥ 0`.
* Trigonometric rotation (pose composition) is parameterised by a
  function `trig : ℚ → ℚ × ℚ` giving `(cos φ, sin φ)`; theorems hold for
  every such function, witnesses instantiate it at `φ = 0` where
  `trig φ = (1, 0)`.
* Calls into the robot interface (events, stop/watchdog commands) are
  recorded in an action list returned next to the new state.
* Exceptions thrown by `updateCurrentPoseAndSpeeds` and the
  `ASSERT_` macros are modelled by cutting the tick short exactly where
  the C++ control flow leaves the `try` block.
-/

/-- Planar point (`mrpt::math::TPoint2D`). -/
structure TPoint2D where
  x : ℚ
  y : ℚ
deriving DecidableEq, Repr

/-- Planar pose (`mrpt::math::TPose2D`). -/
structure TPose2D where
  x : ℚ
  y : ℚ
  phi : ℚ
deriving DecidableEq, Repr

/-- Squared Euclidean distance between two points. -/
def sqDistPP (p q : TPoint2D) : ℚ :=
  (p.x - q.x) ^ 2 + (p.y - q.y) ^ 2

/-- Squared norm of a point seen as a vector. -/
def sqNorm (p : TPoint2D) : ℚ := p.x ^ 2 + p.y ^ 2

/-- Squared shortest distance from point `p` to the segment `[a, b]`
(`mrpt::math::TSegment2D::distance`, squared). -/
def segDistSq (p a b : TPoint2D) : ℚ :=
  let abx := b.x - a.x
  let aby := b.y - a.y
  let l := abx ^ 2 + aby ^ 2
  if l = 0 then sqDistPP p a
  else
    let t := ((p.x - a.x) * abx + (p.y - a.y) * aby) / l
    if t ≤ 0 then sqDistPP p a
    else if 1 ≤ t then sqDistPP p b
    else sqDistPP p ⟨a.x + t * abx, a.y + t * aby⟩

/-- `distLt dsq r` holds iff `√dsq < r`; the C++ code compares the
(non-negative) distance against `r` directly. -/
def distLt (dsq r : ℚ) : Prop := 0 < r ∧ dsq < r * r

instance (dsq r : ℚ) : Decidable (distLt dsq r) :=
  inferInstanceAs (Decidable (0 < r ∧ dsq < r * r))

/-- Pose composition `absTarget.composeFrom(base, rel)` of
`mrpt::poses::CPose2D`, with the rotation of `base.phi` supplied by
`trig`. -/
def composePose (trig : ℚ → ℚ × ℚ) (base rel : TPose2D) : TPose2D :=
  let c := (trig base.phi).1
  let s := (trig base.phi).2
  { x := base.x + c * rel.x - s * rel.y
    y := base.y + s * rel.x + c * rel.y
    phi := base.phi + rel.phi }

/-- `robot_pose.inverseComposePoint(target)`: coordinates of a global
point in the robot frame. -/
def inverseComposePoint (trig : ℚ → ℚ × ℚ) (base : TPose2D) (p : TPoint2D) : TPoint2D :=
  let c := (trig base.phi).1
  let s := (trig base.phi).2
  { x := c * (p.x - base.x) + s * (p.y - base.y)
    y := -s * (p.x - base.x) + c * (p.y - base.y) }

/-- Navigation states (`CAbstractNavigator::TState`). -/
inductive TState where
  | IDLE
  | NAVIGATING
  | SUSPENDED
  | NAV_ERROR
deriving DecidableEq, Repr

open TState

/-- Calls made into the robot interface (`CRobot2NavInterface`) during
one public call or tick, in program order. -/
inductive Act where
  | startWatchdog (period_ms : ℕ)
  | stopWatchdog
  | stopRobot (isEmergency : Bool)
  | sendNavigationStartEvent
  | sendNavigationEndEvent
  | sendNavigationEndDueToErrorEvent
  | sendWaySeemsBlockedEvent
  | sendWaypointReachedEvent (i : ℕ)
  | sendNewWaypointTargetEvent (i : ℕ)
deriving DecidableEq, Repr

/-- `CAbstractNavigator::TNavigationParams`. -/
structure TNavigationParams where
  target : TPose2D
  targetAllowedDistance : ℚ
  targetIsRelative : Bool
  targetIsIntermediaryWaypoint : Bool
deriving DecidableEq, Repr

/-- `CAbstractNavigator::TAbstractNavigatorParams`. -/
structure TAbstractNavigatorParams where
  dist_to_target_for_sending_event : ℚ
  alarm_seems_not_approaching_target_timeout : ℚ
deriving DecidableEq, Repr

/-- Constructor defaults of `TAbstractNavigatorParams`. -/
def defaultAbstractNavigatorParams : TAbstractNavigatorParams :=
  { dist_to_target_for_sending_event := 0
    alarm_seems_not_approaching_target_timeout := 30 }

/-- Mutable state of `CAbstractNavigator`.  `badNavAlarm_minDistTargetSq`
is `none` while the field holds `std::numeric_limits<double>::max()`. -/
structure NavigatorState where
  lastNavigationState : TState
  navigationEndEventSent : Bool
  navigationState : TState
  navigationParams : Option TNavigationParams
  lastNavTargetReached : Bool
  curPose : TPose2D
  last_curPoseVelUpdate_robot_time : ℚ
  latestPoses : List (ℚ × TPose2D)
  badNavAlarm_minDistTargetSq : Option ℚ
  badNavAlarm_lastMinDistTime : ℚ
deriving DecidableEq, Repr

/-- State right after the `CAbstractNavigator` constructor. -/
def initialNavigatorState : NavigatorState :=
  { lastNavigationState := IDLE
    navigationEndEventSent := false
    navigationState := IDLE
    navigationParams := none
    lastNavTargetReached := false
    curPose := ⟨0, 0, 0⟩
    last_curPoseVelUpdate_robot_time := -(10 ^ 9)
    latestPoses := []
    badNavAlarm_minDistTargetSq := none
    badNavAlarm_lastMinDistTime := 0 }

/-- Insert a timestamped pose into the sorted pose timeline
(`CPose3DInterpolator` is a map keyed by timestamp). -/
def insertPose (t : ℚ) (p : TPose2D) : List (ℚ × TPose2D) → List (ℚ × TPose2D)
  | [] => [(t, p)]
  | (t', p') :: rest =>
    if t < t' then (t, p) :: (t', p') :: rest
    else if t = t' then (t, p) :: rest
    else (t', p') :: insertPose t p rest

/-- Timestamp of the newest entry. -/
def newestTime (ps : List (ℚ × TPose2D)) : ℚ :=
  (ps.getLastD (0, ⟨0, 0, 0⟩)).1

/-- Purge entries older than `PREVIOUS_POSES_MAX_AGE = 20` s while more
than one entry remains. -/
def purgeOld : List (ℚ × TPose2D) → List (ℚ × TPose2D)
  | [] => []
  | [x] => [x]
  | x :: y :: rest =>
    if newestTime (x :: y :: rest) - x.1 > 20 then purgeOld (y :: rest)
    else x :: y :: rest

/-- Input of one tick supplied by the environment: the robot clock, the
wall clock, the pose sensor reading (`none` models a failed
`getCurrentPoseAndSpeeds`) and whether the derived
`performNavigationStep` ends in `doEmergencyStop`. -/
structure TickInput where
  robotTime : ℚ
  now : ℚ
  poseRead : Option (TPose2D × ℚ)
  performError : Bool

/-- `CAbstractNavigator::updateCurrentPoseAndSpeeds`.  Returns `none`
when the robot interface fails (the C++ code then sets `NAV_ERROR`,
sends an emergency stop and throws; callers model that). -/
def updateCurrentPoseAndSpeeds (s : NavigatorState) (robotTime : ℚ)
    (poseRead : Option (TPose2D × ℚ)) : Option NavigatorState :=
  if 0 ≤ s.last_curPoseVelUpdate_robot_time ∧
      robotTime - s.last_curPoseVelUpdate_robot_time < 1 / 50 then
    some s
  else
    match poseRead with
    | none => none
    | some (p, ts) =>
      some { s with
        curPose := p
        last_curPoseVelUpdate_robot_time := robotTime
        latestPoses := purgeOld (insertPose ts p s.latestPoses) }

/-- The second-newest pose of the timeline, or the newest when only one
entry exists (`m_latestPoses.size()>1 ? (++rbegin)->second : rbegin->second`). -/
def secondNewest (ps : List (ℚ × TPose2D)) : TPoint2D :=
  match ps.reverse with
  | [] => ⟨0, 0⟩
  | [x] => ⟨x.2.x, x.2.y⟩
  | _ :: y :: _ => ⟨y.2.x, y.2.y⟩

/-- Does this distance improve on the recorded minimum
(`targetDist < m_badNavAlarm_minDistTarget`, squared)? -/
def distSqImproves (dsq : ℚ) : Option ℚ → Prop
  | none => True
  | some m => dsq < m

instance (dsq : ℚ) (o : Option ℚ) : Decidable (distSqImproves dsq o) :=
  match o with
  | none => isTrue trivial
  | some m => inferInstanceAs (Decidable (dsq < m))

/-- `CAbstractNavigator::navigationStep` (one tick).  Returns the new
state and the robot-interface calls made, in program order. -/
def navigationStep (P : TAbstractNavigatorParams) (s : NavigatorState)
    (inp : TickInput) : NavigatorState × List Act :=
  let prev := s.navigationState
  match s.navigationState with
  | IDLE | SUSPENDED =>
    ({ s with lastNavigationState := prev },
     if s.lastNavigationState = NAVIGATING then [Act.stopWatchdog] else [])
  | NAV_ERROR =>
    ({ s with lastNavigationState := prev },
     if s.lastNavigationState = NAVIGATING then
       [Act.sendNavigationEndDueToErrorEvent, Act.stopRobot false, Act.stopWatchdog]
     else [])
  | NAVIGATING =>
    -- Start-of-navigation housekeeping: watchdog, clear pose cache,
    -- onStartNewNavigation() (a no-op at this abstraction level).
    let s1 := if s.lastNavigationState ≠ NAVIGATING then { s with latestPoses := [] } else s
    let a1 : List Act :=
      if s.lastNavigationState ≠ NAVIGATING then [Act.startWatchdog 1000] else []
    let a2 : List Act :=
      if s.lastNavigationState = IDLE then [Act.sendNavigationStartEvent] else []
    match updateCurrentPoseAndSpeeds s1 inp.robotTime inp.poseRead with
    | none =>
      -- Pose read failed: NAV_ERROR, emergency stop, throw (caught by
      -- the surrounding try/catch of navigationStep).
      ({ s1 with navigationState := NAV_ERROR, lastNavigationState := prev },
       a1 ++ a2 ++ [Act.stopRobot true])
    | some s2 =>
      match s2.latestPoses, s2.navigationParams with
      | [], _ =>
        -- ASSERT_(!m_latestPoses.empty()) throws; caught by the catch.
        ({ s2 with lastNavigationState := prev }, a1 ++ a2)
      | _ :: _, none =>
        -- Unreachable from real traces: NAVIGATING implies params set.
        ({ s2 with lastNavigationState := prev }, a1 ++ a2)
      | _ :: _, some np =>
        let p1 : TPoint2D := ⟨s2.curPose.x, s2.curPose.y⟩
        let p2 : TPoint2D := secondNewest s2.latestPoses
        let dsq := segDistSq ⟨np.target.x, np.target.y⟩ p1 p2
        -- Should the "end of navigation" event be sent?
        let s3 :=
          if ¬np.targetIsIntermediaryWaypoint ∧ ¬s2.navigationEndEventSent ∧
              distLt dsq P.dist_to_target_for_sending_event then
            { s2 with navigationEndEventSent := true }
          else s2
        let a3 : List Act :=
          if ¬np.targetIsIntermediaryWaypoint ∧ ¬s2.navigationEndEventSent ∧
              distLt dsq P.dist_to_target_for_sending_event then
            [Act.sendNavigationEndEvent]
          else []
        if distLt dsq np.targetAllowedDistance then
          -- Target reached.
          let s4 := { s3 with lastNavTargetReached := true, navigationState := IDLE }
          let aStop : List Act :=
            if ¬np.targetIsIntermediaryWaypoint then [Act.stopRobot false] else []
          let s5 :=
            if ¬np.targetIsIntermediaryWaypoint ∧ ¬s3.navigationEndEventSent then
              { s4 with navigationEndEventSent := true }
            else s4
          let aEnd : List Act :=
            if ¬np.targetIsIntermediaryWaypoint ∧ ¬s3.navigationEndEventSent then
              [Act.sendNavigationEndEvent]
            else []
          ({ s5 with lastNavigationState := prev }, a1 ++ a2 ++ a3 ++ aStop ++ aEnd)
        else
          -- "Not approaching the target" alarm.
          if distSqImproves dsq s3.badNavAlarm_minDistTargetSq then
            let s4 := { s3 with
              badNavAlarm_minDistTargetSq := some dsq
              badNavAlarm_lastMinDistTime := inp.now }
            if inp.performError then
              ({ s4 with navigationState := NAV_ERROR, lastNavigationState := prev },
               a1 ++ a2 ++ a3 ++ [Act.stopRobot true])
            else
              ({ s4 with lastNavigationState := prev }, a1 ++ a2 ++ a3)
          else
            if inp.now - s3.badNavAlarm_lastMinDistTime >
                P.alarm_seems_not_approaching_target_timeout then
              ({ s3 with navigationState := NAV_ERROR, lastNavigationState := prev },
               a1 ++ a2 ++ a3 ++ [Act.sendWaySeemsBlockedEvent])
            else
              if inp.performError then
                ({ s3 with navigationState := NAV_ERROR, lastNavigationState := prev },
                 a1 ++ a2 ++ a3 ++ [Act.stopRobot true])
              else
                ({ s3 with lastNavigationState := prev }, a1 ++ a2 ++ a3)

/-- `CAbstractNavigator::navigate`. -/
def navigate (trig : ℚ → ℚ × ℚ) (s : NavigatorState) (params : TNavigationParams)
    (inp : TickInput) : NavigatorState × List Act :=
  let s0 := { s with navigationEndEventSent := false, lastNavTargetReached := false }
  if params.targetIsRelative then
    match updateCurrentPoseAndSpeeds s0 inp.robotTime inp.poseRead with
    | none =>
      -- updateCurrentPoseAndSpeeds set NAV_ERROR, stopped, then threw;
      -- the exception leaves navigate() before the state is set to
      -- NAVIGATING.
      ({ s0 with navigationParams := some params, navigationState := NAV_ERROR },
       [Act.stopRobot true])
    | some s1 =>
      let absTarget := composePose trig s1.curPose params.target
      let np := { params with target := absTarget, targetIsRelative := false }
      ({ s1 with
          navigationParams := some np
          navigationState := NAVIGATING
          badNavAlarm_minDistTargetSq := none
          badNavAlarm_lastMinDistTime := inp.now }, [])
  else
    ({ s0 with
        navigationParams := some params
        navigationState := NAVIGATING
        badNavAlarm_minDistTargetSq := none
        badNavAlarm_lastMinDistTime := inp.now }, [])

/-- `CAbstractNavigator::cancel`. -/
def cancel (s : NavigatorState) : NavigatorState × List Act :=
  ({ s with navigationState := IDLE, lastNavTargetReached := false },
   [Act.stopRobot false])

/-- `CAbstractNavigator::suspend`. -/
def suspend (s : NavigatorState) : NavigatorState × List Act :=
  (if s.navigationState = NAVIGATING then { s with navigationState := SUSPENDED } else s,
   [])

/-- `CAbstractNavigator::resume`. -/
def resume (s : NavigatorState) : NavigatorState × List Act :=
  (if s.navigationState = SUSPENDED then { s with navigationState := NAVIGATING } else s,
   [])

/-- `CAbstractNavigator::resetNavError`. -/
def resetNavError (s : NavigatorState) : NavigatorState × List Act :=
  (if s.navigationState = NAV_ERROR then { s with navigationState := IDLE } else s,
   [])

/-- A public entry point of the navigator, or one tick. -/
inductive NavOp where
  | navigate (params : TNavigationParams) (inp : TickInput)
  | cancel
  | suspend
  | resume
  | resetError
  | step (inp : TickInput)

/-- Apply one public call or tick. -/
def applyOp (trig : ℚ → ℚ × ℚ) (P : TAbstractNavigatorParams)
    (s : NavigatorState) : NavOp → NavigatorState × List Act
  | NavOp.navigate params inp => navigate trig s params inp
  | NavOp.cancel => cancel s
  | NavOp.suspend => suspend s
  | NavOp.resume => resume s
  | NavOp.resetError => resetNavError s
  | NavOp.step inp => navigationStep P s inp

/-- State after a sequence of public calls and ticks, starting from `s`. -/
def runOps (trig : ℚ → ℚ × ℚ) (P : TAbstractNavigatorParams)
    (s : NavigatorState) : List NavOp → NavigatorState
  | [] => s
  | op :: rest => runOps trig P (applyOp trig P s op).1 rest

/-- `mrpt::nav::TWaypoint` (request fields). -/
structure TWaypoint where
  targetX : ℚ
  targetY : ℚ
  targetHeading : Option ℚ
  allowedDistance : ℚ
  allowSkip : Bool
deriving DecidableEq, Repr

/-- `mrpt::nav::TWaypointStatus`: a waypoint plus its status fields. -/
structure TWaypointStatus extends TWaypoint where
  reached : Bool := false
  counter_seen_reachable : ℕ := 0
deriving DecidableEq, Repr

/-- `mrpt::nav::TWaypointStatusSequence`.  `lastRobotPose = none` models
the `TWaypoint::INVALID_NUM` sentinel. -/
structure TWaypointStatusSequence where
  waypoints : List TWaypointStatus
  waypoint_index_current_goal : ℤ
  final_goal_reached : Bool
  lastRobotPose : Option TPose2D
deriving DecidableEq, Repr

/-- Status sequence after `TWaypointStatusSequence()`'s constructor. -/
def emptyWaypointStatusSequence : TWaypointStatusSequence :=
  { waypoints := []
    waypoint_index_current_goal := -1
    final_goal_reached := false
    lastRobotPose := none }

/-- `CWaypointsNavigator::TWaypointsNavigatorParams`. -/
structure TWaypointsNavigatorParams where
  max_distance_to_allow_skip_waypoint : ℚ
  min_timesteps_confirm_skip_waypoints : ℕ
deriving DecidableEq, Repr

/-- Combined state of `CWaypointsNavigator` (base navigator plus the
waypoint status sequence). -/
structure WpNavigatorState where
  base : NavigatorState
  wps : TWaypointStatusSequence
deriving DecidableEq, Repr

/-- `CWaypointsNavigator::navigateWaypoints`: replace the status
sequence wholesale, leaving status fields at their defaults. -/
def navigateWaypoints (s : WpNavigatorState) (request : List TWaypoint) : WpNavigatorState :=
  { s with wps :=
    { waypoints := request.map (fun w =>
        { toTWaypoint := w, reached := false, counter_seen_reachable := 0 })
      waypoint_index_current_goal := -1
      final_goal_reached := false
      lastRobotPose := none } }

/-- One tick input for the waypoints navigator: the base tick input plus
the derived `impl_waypoint_is_reachable` oracle. -/
structure WpTickInput where
  tick : TickInput
  reachable : TPoint2D → Bool

/-- The `for (int idx=current_goal; ...)` look-ahead loop of
`CWaypointsNavigator::navigationStep`, with an explicit fuel argument
(callers pass `waypoints.length - idx`, which bounds the iterations).
Returns the updated waypoint list (reachability counters) and the final
`most_advanced_wp`. -/
def scanLoop (WP : TWaypointsNavigatorParams) (trig : ℚ → ℚ × ℚ)
    (reachable : TPoint2D → Bool) (robotPose : TPose2D) :
    ℕ → List TWaypointStatus → ℕ → ℕ → List TWaypointStatus × ℕ
  | 0, wl, _, most => (wl, most)
  | fuel + 1, wl, idx, most =>
    match wl.get? idx with
    | none => (wl, most)
    | some w =>
      let wpLocal := inverseComposePoint trig robotPose ⟨w.targetX, w.targetY⟩
      if 0 < WP.max_distance_to_allow_skip_waypoint ∧
          sqNorm wpLocal > WP.max_distance_to_allow_skip_waypoint *
            WP.max_distance_to_allow_skip_waypoint then
        -- Skip this one, it is too far away (`continue`).
        scanLoop WP trig reachable robotPose fuel wl (idx + 1) most
      else
        let wl' :=
          if reachable wpLocal then
            wl.set idx { w with counter_seen_reachable := w.counter_seen_reachable + 1 }
          else wl
        let most' :=
          if reachable wpLocal ∧
              w.counter_seen_reachable + 1 > WP.min_timesteps_confirm_skip_waypoints then
            idx
          else most
        if ¬w.allowSkip then (wl', most')
        else scanLoop WP trig reachable robotPose fuel wl' (idx + 1) most'

/-- Mark waypoints `first ≤ k < stop` as reached, emitting one
`sendWaypointReachedEvent` per waypoint, in index order. -/
def markReachedRange (wl : List TWaypointStatus) (first stop : ℕ) :
    List TWaypointStatus × List Act :=
  ((List.range' first (stop - first)).foldl
      (fun acc k =>
        match acc.1.get? k with
        | some w => (acc.1.set k { w with reached := true }, acc.2 ++ [Act.sendWaypointReachedEvent k])
        | none => acc)
      (wl, []))

/-- Steps 2 of `CWaypointsNavigator::navigationStep` (the skip
look-ahead): run the scan from the current goal, advance the goal to the
best candidate and mark the waypoints in between as reached. -/
def waypointScanAdvance (WP : TWaypointsNavigatorParams) (trig : ℚ → ℚ × ℚ)
    (reachable : TPoint2D → Bool) (robotPose : TPose2D)
    (wps : TWaypointStatusSequence) (g : ℕ) :
    TWaypointStatusSequence × List Act :=
  let (wl, most) := scanLoop WP trig reachable robotPose
    (wps.waypoints.length - g) wps.waypoints g g
  let (wl2, acts) := markReachedRange wl g most
  ({ wps with waypoints := wl2, waypoint_index_current_goal := (most : ℤ) }, acts)

/-- `CWaypointsNavigator::navigationStep`: the waypoint-sequencing part
followed by the base `CAbstractNavigator::navigationStep`. -/
def wpNavigationStep (trig : ℚ → ℚ × ℚ) (P : TAbstractNavigatorParams)
    (WP : TWaypointsNavigatorParams) (s : WpNavigatorState)
    (inp : WpTickInput) : WpNavigatorState × List Act :=
  if s.wps.waypoints.isEmpty ∨ s.wps.final_goal_reached then
    -- No nav request is pending or it was canceled; only the base step runs.
    let (b', acts) := navigationStep P s.base inp.tick
    ({ s with base := b' }, acts)
  else
    match updateCurrentPoseAndSpeeds s.base inp.tick.robotTime inp.tick.poseRead with
    | none =>
      -- The throw from updateCurrentPoseAndSpeeds propagates out of the
      -- whole navigationStep (no catch in CWaypointsNavigator).
      ({ s with base := { s.base with navigationState := NAV_ERROR } },
       [Act.stopRobot true])
    | some b1 =>
      let prevIdx := s.wps.waypoint_index_current_goal
      let p1 : TPoint2D := ⟨b1.curPose.x, b1.curPose.y⟩
      let p2 : TPoint2D :=
        match s.wps.lastRobotPose with
        | none => p1
        | some lp => ⟨lp.x, lp.y⟩
      let wps1 := { s.wps with lastRobotPose := some b1.curPose }
      -- 1) Default policy: go through waypoints one by one.
      let (wps2, acts1) :=
        if wps1.waypoint_index_current_goal ≥ 0 then
          let g := wps1.waypoint_index_current_goal.toNat
          match wps1.waypoints.get? g with
          | some w =>
            if distLt (segDistSq ⟨w.targetX, w.targetY⟩ p1 p2) w.allowedDistance ∨
                b1.lastNavTargetReached then
              let wl := wps1.waypoints.set g { w with reached := true }
              if g < wps1.waypoints.length - 1 then
                ({ wps1 with
                    waypoints := wl
                    waypoint_index_current_goal := (g : ℤ) + 1 },
                 [Act.sendWaypointReachedEvent g])
              else
                ({ wps1 with waypoints := wl, final_goal_reached := true },
                 [Act.sendWaypointReachedEvent g])
            else (wps1, [])
          | none => (wps1, [])
        else (wps1, [])
      -- 2) Skip look-ahead.
      let (wps3, acts2) :=
        if ¬wps2.final_goal_reached ∧ wps2.waypoint_index_current_goal ≥ 0 then
          waypointScanAdvance WP trig inp.reachable b1.curPose wps2
            wps2.waypoint_index_current_goal.toNat
        else (wps2, [])
      -- Still not started? Start with the first waypoint.
      let wps4 :=
        if wps3.waypoint_index_current_goal < 0 then
          { wps3 with waypoint_index_current_goal := 0 }
        else wps3
      -- 3) Request a single-target navigation if the goal changed.
      let (b2, acts3) :=
        if wps4.waypoint_index_current_goal ≥ 0 ∧
            prevIdx ≠ wps4.waypoint_index_current_goal then
          let g := wps4.waypoint_index_current_goal.toNat
          match wps4.waypoints.get? g with
          | some w =>
            let isFinal := g + 1 = wps4.waypoints.length
            let np : TNavigationParams :=
              { target := ⟨w.targetX, w.targetY, w.targetHeading.getD 0⟩
                targetAllowedDistance := w.allowedDistance
                targetIsRelative := false
                targetIsIntermediaryWaypoint := ¬isFinal }
            let (b', a') := navigate trig b1 np inp.tick
            (b', [Act.sendNewWaypointTargetEvent g] ++ a')
          | none => (b1, [])
        else (b1, [])
      -- Base navigation step, called after the waypoints part.
      let (b3, acts4) := navigationStep P b2 inp.tick
      ({ base := b3, wps := wps4 }, acts1 ++ acts2 ++ acts3 ++ acts4)

/-!  Fragments of `CAbstractPTGBasedReactive`. -/

/-- Safety scaling of `build_movement_candidate`: the obstacle-free
normalised distance fed into the security ramp, after the NOP look-ahead
reduction.  `vNorm` is `hypot(velLocal.vx, velLocal.vy)` and `maxTimeNOP`
is `ptg->maxTimeInVelCmdNOP(kDirection)`. -/
def nopObsFreeDistance (supportsNOP : Bool) (obsAtDir vNorm maxTimeNOP : ℚ) : ℚ :=
  if supportsNOP then
    min obsAtDir (max (9 / 10) (obsAtDir - vNorm * maxTimeNOP))
  else obsAtDir

/-- The security ramp of `build_movement_candidate`: speed scale as a
function of the obstacle-free normalised distance. -/
def securityVelScale (secure_distance_start secure_distance_end free : ℚ) : ℚ :=
  if free < secure_distance_end then
    if free ≤ secure_distance_start then 0
    else (free - secure_distance_start) / (secure_distance_end - secure_distance_start)
  else 1

/-- Candidate speed after the safety scaling of
`build_movement_candidate` (holonomic speed times ramp scale, with the
ramp fed by the NOP-reduced obstacle-free distance). -/
def candidateSpeedAfterSafety (secure_distance_start secure_distance_end : ℚ)
    (supportsNOP : Bool) (obsAtDir vNorm maxTimeNOP holoSpeed : ℚ) : ℚ :=
  holoSpeed * securityVelScale secure_distance_start secure_distance_end
    (nopObsFreeDistance supportsNOP obsAtDir vNorm maxTimeNOP)

/-- The PTG queries consumed by the NOP gating logic. -/
structure PTGnop where
  supportVelCmdNOP : Bool
  maxTimeInVelCmdNOP : ℤ → ℚ

/-- `CAbstractPTGBasedReactive::TSentVelCmd`; `poseVelTimestamp = none`
models `INVALID_TIMESTAMP` (the validity sentinel). -/
structure TSentVelCmd where
  ptg_index : ℕ
  ptg_alpha_index : ℤ
  tim_send_cmd_vel : ℚ
  poseVelTimestamp : Option ℚ
deriving DecidableEq, Repr

/-- `TSentVelCmd::isValid`. -/
def TSentVelCmd.isValid (c : TSentVelCmd) : Bool := c.poseVelTimestamp ≠ none

/-- The `can_do_nop_motion` gate of
`CAbstractPTGBasedReactive::performNavigationStep` (round 2): whether
the NOP continuation candidate (index N) is evaluated this tick. -/
def can_do_nop_motion (ptgs : ℕ → PTGnop) (lastSentVelCmd : TSentVelCmd)
    (target_changed_since_last_iteration : Bool) (tim_start_iteration : ℚ) : Bool :=
  (lastSentVelCmd.isValid &&
   !target_changed_since_last_iteration &&
   (ptgs lastSentVelCmd.ptg_index).supportVelCmdNOP) &&
  decide (tim_start_iteration - lastSentVelCmd.tim_send_cmd_vel <
    (ptgs lastSentVelCmd.ptg_index).maxTimeInVelCmdNOP lastSentVelCmd.ptg_alpha_index)

/-- The PTG queries consumed by the reachability test: the number of
discretised paths and the workspace-to-TP-space inverse map (`none`
when the point is not into the PTG's domain). -/
structure PTGreach where
  pathCount : ℕ
  inverseMap_WS2TP : ℚ → ℚ → Option (ℕ × ℚ)

/-- The per-PTG loop body of `impl_waypoint_is_reachable`: scan the
PTGs paired with their per-tick TP-obstacle vectors, returning `true` at
the first one that sees a free path to `wp`. -/
def anyPtgReaches (wp : TPoint2D) : List (PTGreach × List ℚ) → Bool
  | [] => false
  | (ptg, tp_obs) :: rest =>
    if tp_obs.length ≠ ptg.pathCount then anyPtgReaches wp rest
    else
      match ptg.inverseMap_WS2TP wp.x wp.y with
      | none => anyPtgReaches wp rest
      | some (wp_k, wp_norm_d) =>
        if tp_obs.getD wp_k 0 > 101 / 100 * wp_norm_d then true
        else anyPtgReaches wp rest

/-- `CAbstractPTGBasedReactive::impl_waypoint_is_reachable`.
`infoTimestamp = none` models `m_infoPerTG_timestamp == INVALID_TIMESTAMP`. -/
def impl_waypoint_is_reachable (ptgs : List PTGreach) (infoPerPTG : List (List ℚ))
    (infoTimestamp : Option ℚ) (now : ℚ) (wp : TPoint2D) : Bool :=
  if infoPerPTG.length < ptgs.length then false
  else
    match infoTimestamp with
    | none => false
    | some ts =>
      if now - ts > 1 / 2 then false
      else anyPtgReaches wp (ptgs.zip infoPerPTG)

/-!  Concrete scenario for the waypoint-skip claim: waypoints
`[(1,0) allow_skip, (2,0) allow_skip, (3,0) final]`, reachability always
`true`, no distance limit, `min_timesteps_confirm_skip_waypoints = 2`,
robot stationary at the origin, one tick every 0.1 s. -/

/-- Exact trigonometry at the only heading used (φ = 0). -/
def trigZero : ℚ → ℚ × ℚ := fun _ => (1, 0)

/-- The three scenario waypoints. -/
def scenarioWaypoints : List TWaypoint :=
  [ { targetX := 1, targetY := 0, targetHeading := none,
      allowedDistance := 1 / 10, allowSkip := true }
  , { targetX := 2, targetY := 0, targetHeading := none,
      allowedDistance := 1 / 10, allowSkip := true }
  , { targetX := 3, targetY := 0, targetHeading := none,
      allowedDistance := 1 / 10, allowSkip := false } ]

/-- Waypoint-navigator parameters of the scenario. -/
def scenarioWpParams : TWaypointsNavigatorParams :=
  { max_distance_to_allow_skip_waypoint := -1
    min_timesteps_confirm_skip_waypoints := 2 }

/-- Tick input of the `i`-th scenario tick (robot frozen at the origin). -/
def scenarioTick (i : ℕ) : WpTickInput :=
  { tick :=
      { robotTime := i / 10
        now := i / 10
        poseRead := some (⟨0, 0, 0⟩, (i : ℚ) / 10)
        performError := false }
    reachable := fun _ => true }

/-- Run `n` scenario ticks from the state right after
`navigateWaypoints`, collecting all emitted actions. -/
def scenarioRun : ℕ → WpNavigatorState × List Act
  | 0 =>
    (navigateWaypoints ⟨initialNavigatorState, emptyWaypointStatusSequence⟩
      scenarioWaypoints, [])
  | n + 1 =>
    let (s, acts) := scenarioRun n
    let (s', acts') := wpNavigationStep trigZero defaultAbstractNavigatorParams
      scenarioWpParams s (scenarioTick (n + 1))
    (s', acts ++ acts')


/-- The transition edges the navigator state machine actually follows
(the edges of spec §4.1 plus: `navigate()` moves to NAVIGATING from any
state — or to NAV_ERROR when the pose read fails while resolving a
relative target — and `cancel()` moves to IDLE from any state; arrival
moves to IDLE also for intermediary waypoints). -/
def allowedTransition (s s' : TState) : NavOp → Prop
  | NavOp.navigate _ _ => s' = NAVIGATING ∨ s' = NAV_ERROR
  | NavOp.cancel => s' = IDLE
  | NavOp.suspend => (s = NAVIGATING ∧ s' = SUSPENDED) ∨ s' = s
  | NavOp.resume => (s = SUSPENDED ∧ s' = NAVIGATING) ∨ s' = s
  | NavOp.resetError => (s = NAV_ERROR ∧ s' = IDLE) ∨ s' = s
  | NavOp.step _ =>
      (s = NAVIGATING ∧ (s' = NAVIGATING ∨ s' = IDLE ∨ s' = NAV_ERROR)) ∨ s' = s

/-- An intermediary-waypoint target 0.1 m ahead (allowed distance 0.5 m). -/
def arrivalIntermediaryParams : TNavigationParams :=
  { target := ⟨1 / 10, 0, 0⟩
    targetAllowedDistance := 1 / 2
    targetIsRelative := false
    targetIsIntermediaryWaypoint := true }

/-- A NAVIGATING state about to arrive at an intermediary waypoint
target 0.1 m ahead (allowed distance 0.5 m). -/
def arrivalIntermediaryState : NavigatorState :=
  { lastNavigationState := NAVIGATING
    navigationEndEventSent := false
    navigationState := NAVIGATING
    navigationParams := some arrivalIntermediaryParams
    lastNavTargetReached := false
    curPose := ⟨0, 0, 0⟩
    last_curPoseVelUpdate_robot_time := 1
    latestPoses := [(1, ⟨0, 0, 0⟩)]
    badNavAlarm_minDistTargetSq := some 1
    badNavAlarm_lastMinDistTime := 1 }

/-- Tick input for `arrivalIntermediaryState`: pose was refreshed 5 ms
ago, so this tick reuses the cached pose. -/
def arrivalIntermediaryInput : TickInput :=
  { robotTime := 201 / 200
    now := 2
    poseRead := some (⟨0, 0, 0⟩, 2)
    performError := false }

/-- A final (non-intermediary) target 0.1 m ahead. -/
def arrivalFinalParams : TNavigationParams :=
  { target := ⟨1 / 10, 0, 0⟩
    targetAllowedDistance := 1 / 2
    targetIsRelative := false
    targetIsIntermediaryWaypoint := false }

/-- Same situation as `arrivalIntermediaryState` but with a final
(non-intermediary) target. -/
def arrivalFinalState : NavigatorState :=
  { arrivalIntermediaryState with navigationParams := some arrivalFinalParams }

/-- A far final target (10 m ahead, allowed distance 0.5 m). -/
def stallParams : TNavigationParams :=
  { target := ⟨10, 0, 0⟩
    targetAllowedDistance := 1 / 2
    targetIsRelative := false
    targetIsIntermediaryWaypoint := false }

/-- A NAVIGATING state whose distance to the target (10 m) has not
improved on the recorded minimum (1 m) since `t = 0`. -/
def stallState : NavigatorState :=
  { lastNavigationState := NAVIGATING
    navigationEndEventSent := false
    navigationState := NAVIGATING
    navigationParams := some stallParams
    lastNavTargetReached := false
    curPose := ⟨0, 0, 0⟩
    last_curPoseVelUpdate_robot_time := 31
    latestPoses := [(31, ⟨0, 0, 0⟩)]
    badNavAlarm_minDistTargetSq := some 1
    badNavAlarm_lastMinDistTime := 0 }

/-- Tick input for `stallState`: 31 s after the last improvement, past
the default 30 s alarm timeout. -/
def stallInput : TickInput :=
  { robotTime := 6201 / 200
    now := 31
    poseRead := some (⟨0, 0, 0⟩, 31)
    performError := false }

/-- A single-target navigation request used in state-machine traces. -/
def simpleNavParams : TNavigationParams :=
  { target := ⟨5, 0, 0⟩
    targetAllowedDistance := 1 / 2
    targetIsRelative := false
    targetIsIntermediaryWaypoint := false }

/-- A tick whose pose read fails (`getCurrentPoseAndSpeeds` returns
`false`). -/
def failingTickInput : TickInput :=
  { robotTime := 1, now := 1, poseRead := none, performError := false }

/-- A benign tick input. -/
def okTickInput : TickInput :=
  { robotTime := 2, now := 2, poseRead := some (⟨0, 0, 0⟩, 2), performError := false }

/-- Waypoint statuses with a non-skippable waypoint at (10,0) — beyond
the 5 m skip-distance limit — followed by a skippable one at (1,0)
already confirmed reachable on 5 past ticks. -/
def farNoSkipWaypoints : List TWaypointStatus :=
  [ { targetX := 10, targetY := 0, targetHeading := none,
      allowedDistance := 1 / 10, allowSkip := false,
      reached := false, counter_seen_reachable := 5 }
  , { targetX := 1, targetY := 0, targetHeading := none,
      allowedDistance := 1 / 10, allowSkip := true,
      reached := false, counter_seen_reachable := 5 } ]

/-- Status sequence wrapping `farNoSkipWaypoints`, current goal 0. -/
def farNoSkipSeq : TWaypointStatusSequence :=
  { waypoints := farNoSkipWaypoints
    waypoint_index_current_goal := 0
    final_goal_reached := false
    lastRobotPose := some ⟨0, 0, 0⟩ }

/-- Waypoint-navigator parameters with a 5 m skip-distance limit. -/
def farNoSkipParams : TWaypointsNavigatorParams :=
  { max_distance_to_allow_skip_waypoint := 5
    min_timesteps_confirm_skip_waypoints := 2 }

/-- A PTG whose inverse map sends every workspace point to direction 0
at normalised distance 1/4, with 2 paths. -/
def unitPTG : PTGreach :=
  { pathCount := 2
    inverseMap_WS2TP := fun _ _ => some (0, 1 / 4) }

/-!  Theorems. -/

/-- Claim C10. In any state other than NAVIGATING, `suspend()` leaves the
whole navigator state unchanged and performs no robot-interface call;
likewise `resume()` in any state other than SUSPENDED and
`resetNavError()` in any state other than NAV_ERROR.  Each call's no-op
behaviour depends only on its own guard state, so all off-state
combinations are covered. -/
theorem offstate_calls_are_noops (s : NavigatorState) :
    (s.navigationState ≠ NAVIGATING → suspend s = (s, [])) ∧
    (s.navigationState ≠ SUSPENDED → resume s = (s, [])) ∧
    (s.navigationState ≠ NAV_ERROR → resetNavError s = (s, [])) := by
  refine ⟨fun h => ?_, fun h => ?_, fun h => ?_⟩ <;>
    simp [suspend, resume, resetNavError, h]

/-- Witness for `offstate_calls_are_noops`: `suspend()` at a concrete
IDLE state, and `resume()` / `resetNavError()` at a concrete NAVIGATING
state, are all no-ops. -/
theorem offstate_calls_are_noops_witness :
    suspend initialNavigatorState = (initialNavigatorState, []) ∧
    resume stallState = (stallState, []) ∧
    resetNavError stallState = (stallState, []) :=
  ⟨(offstate_calls_are_noops initialNavigatorState).1 (by decide),
   (offstate_calls_are_noops stallState).2.1 (by decide),
   (offstate_calls_are_noops stallState).2.2 (by decide)⟩

/-- Claim C6. The NOP continuation candidate is gated exactly by the four
conditions: a valid previous `SentVelCmd`, an unchanged target, a
previous PTG supporting NOP, and an elapsed time strictly below
`maxTimeInVelCmdNOP` of the previously commanded alpha index. -/
theorem can_do_nop_motion_iff (ptgs : ℕ → PTGnop) (last : TSentVelCmd)
    (target_changed : Bool) (tim_start : ℚ) :
    can_do_nop_motion ptgs last target_changed tim_start = true ↔
      (last.isValid = true ∧ target_changed = false ∧
       (ptgs last.ptg_index).supportVelCmdNOP = true ∧
       tim_start - last.tim_send_cmd_vel <
         (ptgs last.ptg_index).maxTimeInVelCmdNOP last.ptg_alpha_index) := by
  simp [can_do_nop_motion, and_assoc]

/-- Claim C5 (counterexample). The claim says the obstacle-free distance
fed into the safety ramp equals `obstacles[k] − |v|·maxTimeInVelCmdNOP(k)`
with no lower clamp; at `obstacles[k] = 1`, `|v| = 1`,
`maxTimeInVelCmdNOP(k) = 1/2` the code feeds `9/10`, not `1/2`. -/
theorem nopObsFreeDistance_clamps_cex :
    nopObsFreeDistance true 1 1 (1 / 2) = 9 / 10 ∧
    (1 : ℚ) - 1 * (1 / 2) = 1 / 2 ∧
    nopObsFreeDistance true 1 1 (1 / 2) ≠ (1 : ℚ) - 1 * (1 / 2) := by
  refine ⟨?_, by norm_num, ?_⟩ <;> simp [nopObsFreeDistance] <;> norm_num

/-- Claim C5 (amended). For a PTG supporting NOP commands, the value fed
into the safety ramp is the TP-obstacle distance at the chosen direction
reduced by `|v|·maxTimeInVelCmdNOP(k)`, but clamped from below: the raw
reduction is used only while it stays at least `0.90`; below that the
fed value is `min(obstacles[k], 0.90)`. -/
theorem nopObsFreeDistance_characterisation (obs vNorm maxT : ℚ)
    (hred : 0 ≤ vNorm * maxT) :
    (9 / 10 ≤ obs - vNorm * maxT →
      nopObsFreeDistance true obs vNorm maxT = obs - vNorm * maxT) ∧
    (obs - vNorm * maxT < 9 / 10 →
      nopObsFreeDistance true obs vNorm maxT = min obs (9 / 10)) := by
  constructor
  · intro h
    have hle : obs - vNorm * maxT ≤ obs := by linarith
    simp [nopObsFreeDistance, max_eq_right h, min_eq_right hle]
  · intro h
    simp [nopObsFreeDistance, max_eq_left (le_of_lt h)]

/-- Witness for `nopObsFreeDistance_characterisation`: at `obs = 1`,
`|v|·maxT = 1/100` the ramp is fed the raw reduction `99/100`. -/
theorem nopObsFreeDistance_characterisation_witness :
    nopObsFreeDistance true 1 1 (1 / 100) = 1 - 1 * (1 / 100) :=
  (nopObsFreeDistance_characterisation 1 1 (1 / 100) (by norm_num)).1 (by norm_num)

/-- Unfolded characterisation of the per-PTG scan of
`impl_waypoint_is_reachable`. -/
theorem anyPtgReaches_iff (wp : TPoint2D) (l : List (PTGreach × List ℚ)) :
    anyPtgReaches wp l = true ↔
      ∃ pr ∈ l, pr.2.length = pr.1.pathCount ∧
        ∃ k d, pr.1.inverseMap_WS2TP wp.x wp.y = some (k, d) ∧
          pr.2.getD k 0 > 101 / 100 * d := by
  induction l with
  | nil => simp [anyPtgReaches]
  | cons hd tl ih =>
    obtain ⟨ptg, obs⟩ := hd
    rw [anyPtgReaches]
    by_cases hlen : obs.length ≠ ptg.pathCount
    · rw [if_pos hlen, ih]
      constructor
      · rintro ⟨pr, hpr, h⟩
        exact ⟨pr, List.mem_cons_of_mem _ hpr, h⟩
      · rintro ⟨pr, hpr, h⟩
        rcases List.mem_cons.mp hpr with heq | hm
        · exact absurd h.1 (heq ▸ hlen)
        · exact ⟨pr, hm, h⟩
    · rw [if_neg hlen]
      rw [not_not] at hlen
      cases hinv : ptg.inverseMap_WS2TP wp.x wp.y with
      | none =>
        rw [ih]
        constructor
        · rintro ⟨pr, hpr, h⟩
          exact ⟨pr, List.mem_cons_of_mem _ hpr, h⟩
        · rintro ⟨pr, hpr, h⟩
          rcases List.mem_cons.mp hpr with heq | hm
          · obtain ⟨k, d, hkd, _⟩ := h.2
            rw [heq] at hkd
            rw [hinv] at hkd
            cases hkd
          · exact ⟨pr, hm, h⟩
      | some kd =>
        obtain ⟨k, d⟩ := kd
        dsimp only
        by_cases hgt : obs.getD k 0 > 101 / 100 * d
        · rw [if_pos hgt]
          constructor
          · intro _
            exact ⟨(ptg, obs), List.mem_cons_self _ _, hlen, k, d, hinv, hgt⟩
          · intro _
            rfl
        · rw [if_neg hgt, ih]
          constructor
          · rintro ⟨pr, hpr, h⟩
            exact ⟨pr, List.mem_cons_of_mem _ hpr, h⟩
          · rintro ⟨pr, hpr, h⟩
            rcases List.mem_cons.mp hpr with heq | hm
            · subst heq
              obtain ⟨k', d', hkd, hgt'⟩ := h.2
              dsimp only at hkd hgt'
              rw [hinv] at hkd
              cases hkd
              exact absurd (by simpa using hgt') hgt
            · exact ⟨pr, hm, h⟩

/-- Claim C8. The reachability query returns `true` iff the per-PTG data
is fresh (≤ 0.5 s old), present for every PTG, and some PTG's inverse
map places `wp` inside its domain at a direction index `k` and
normalised distance `d` with `TP_obstacles[k] > 1.01·d`; with absent or
stale (> 0.5 s) per-PTG information it returns `false`. -/
theorem impl_waypoint_is_reachable_iff (ptgs : List PTGreach)
    (infoPerPTG : List (List ℚ)) (ts now : ℚ) (wp : TPoint2D) :
    (impl_waypoint_is_reachable ptgs infoPerPTG (some ts) now wp = true ↔
      (now - ts ≤ 1 / 2 ∧ ptgs.length ≤ infoPerPTG.length ∧
       ∃ pr ∈ ptgs.zip infoPerPTG, pr.2.length = pr.1.pathCount ∧
         ∃ k d, pr.1.inverseMap_WS2TP wp.x wp.y = some (k, d) ∧
           pr.2.getD k 0 > 101 / 100 * d)) ∧
    impl_waypoint_is_reachable ptgs infoPerPTG none now wp = false ∧
    (now - ts > 1 / 2 →
      impl_waypoint_is_reachable ptgs infoPerPTG (some ts) now wp = false) := by
  refine ⟨?_, ?_, ?_⟩
  · rw [impl_waypoint_is_reachable]
    by_cases hlen : infoPerPTG.length < ptgs.length
    · rw [if_pos hlen]
      constructor
      · intro h
        cases h
      · rintro ⟨_, h, _⟩
        omega
    · rw [if_neg hlen]
      by_cases hold : now - ts > 1 / 2
      · rw [if_pos hold]
        constructor
        · intro h
          cases h
        · rintro ⟨h, _⟩
          linarith
      · rw [if_neg hold, anyPtgReaches_iff]
        constructor
        · intro h
          exact ⟨by linarith, by omega, h⟩
        · exact fun h => h.2.2
  · rw [impl_waypoint_is_reachable]
    by_cases hlen : infoPerPTG.length < ptgs.length
    · rw [if_pos hlen]
    · rw [if_neg hlen]
  · intro hold
    rw [impl_waypoint_is_reachable]
    by_cases hlen : infoPerPTG.length < ptgs.length
    · rw [if_pos hlen]
    · rw [if_neg hlen, if_pos hold]

/-- Claim C4 (counterexample). In the waypoint-skip scenario
([(1,0) skip, (2,0) skip, (3,0) final], reachability always true, no
distance limit, `min_timesteps_confirm_skip_waypoints = 2`, robot
stationary at the origin), after exactly 3 ticks the current goal index
is still 0 — not 2, the index of waypoint (3,0) — and no
waypoint-reached event has been emitted. -/
theorem waypoint_skip_three_ticks_cex :
    (scenarioRun 3).1.wps.waypoint_index_current_goal = 0 ∧
    (scenarioRun 3).1.wps.waypoint_index_current_goal ≠ 2 ∧
    Act.sendWaypointReachedEvent 0 ∉ (scenarioRun 3).2 ∧
    Act.sendWaypointReachedEvent 1 ∉ (scenarioRun 3).2 := by
  decide

/-- Claim C4 (amended). In the same scenario the advance happens one tick
later: after exactly 4 ticks the current goal index is 2 — the waypoint
at (3,0) — and waypoint-reached events have been emitted for indices 0
and 1 (the counter must strictly exceed `min_timesteps_confirm_skip_waypoints`,
and the first tick only assigns the initial goal, so the look-ahead scan
runs from tick 2 on). -/
theorem waypoint_skip_four_ticks :
    (scenarioRun 4).1.wps.waypoint_index_current_goal = 2 ∧
    ((scenarioRun 4).1.wps.waypoints.map (fun w => (w.targetX, w.targetY))).get? 2 =
      some (3, 0) ∧
    Act.sendWaypointReachedEvent 0 ∈ (scenarioRun 4).2 ∧
    Act.sendWaypointReachedEvent 1 ∈ (scenarioRun 4).2 := by
  decide

/-- Field preservation of `updateCurrentPoseAndSpeeds` on success. -/
theorem updateCurrentPoseAndSpeeds_fields {s s' : NavigatorState} {rt : ℚ}
    {pr : Option (TPose2D × ℚ)} (h : updateCurrentPoseAndSpeeds s rt pr = some s') :
    s'.navigationState = s.navigationState ∧
    s'.lastNavigationState = s.lastNavigationState ∧
    s'.navigationEndEventSent = s.navigationEndEventSent ∧
    s'.navigationParams = s.navigationParams ∧
    s'.lastNavTargetReached = s.lastNavTargetReached ∧
    s'.badNavAlarm_minDistTargetSq = s.badNavAlarm_minDistTargetSq ∧
    s'.badNavAlarm_lastMinDistTime = s.badNavAlarm_lastMinDistTime := by
  unfold updateCurrentPoseAndSpeeds at h
  split at h
  · cases h
    exact ⟨rfl, rfl, rfl, rfl, rfl, rfl, rfl⟩
  · cases pr with
    | none => cases h
    | some pp =>
      obtain ⟨p, ts⟩ := pp
      cases h
      exact ⟨rfl, rfl, rfl, rfl, rfl, rfl, rfl⟩

/-- The navigation state after one tick: unchanged, or — only from
NAVIGATING — moved to IDLE (arrival) or NAV_ERROR (failure / stall). -/
theorem navigationStep_state_cases (P : TAbstractNavigatorParams)
    (s : NavigatorState) (inp : TickInput) :
    (navigationStep P s inp).1.navigationState = s.navigationState ∨
    (s.navigationState = NAVIGATING ∧
      ((navigationStep P s inp).1.navigationState = IDLE ∨
       (navigationStep P s inp).1.navigationState = NAV_ERROR)) := by
  cases hs : s.navigationState with
  | IDLE => simp [navigationStep, hs]
  | SUSPENDED => simp [navigationStep, hs]
  | NAV_ERROR => simp [navigationStep, hs]
  | NAVIGATING =>
    simp only [navigationStep, hs]
    split
    · simp
    · rename_i s2 heq
      have h2 : s2.navigationState = NAVIGATING := by
        have h := (updateCurrentPoseAndSpeeds_fields heq).1
        split at h <;> simpa [hs] using h
      repeat' split
      all_goals simp [hs, h2, apply_ite NavigatorState.navigationState]

/-- Claim C2 (counterexample). Starting from IDLE, the sequence
`navigate; tick-with-failing-pose-read; navigate` reaches NAV_ERROR after
the failing tick and then NAVIGATING: the transition NAV_ERROR →
NAVIGATING on `navigate()` — which the claim says never occurs — does
occur. -/
theorem navigate_from_nav_error_cex :
    (runOps trigZero defaultAbstractNavigatorParams initialNavigatorState
      [NavOp.navigate simpleNavParams okTickInput,
       NavOp.step failingTickInput]).navigationState = NAV_ERROR ∧
    (runOps trigZero defaultAbstractNavigatorParams initialNavigatorState
      [NavOp.navigate simpleNavParams okTickInput,
       NavOp.step failingTickInput,
       NavOp.navigate simpleNavParams okTickInput]).navigationState = NAVIGATING := by
  decide

/-- Claim C2 (amended). Every state change follows the edge set of §4.1
*extended* as follows: `navigate()` moves to NAVIGATING from any state
(IDLE, NAVIGATING, SUSPENDED or NAV_ERROR; or to NAV_ERROR when the
pose read fails while resolving a relative target), and `cancel()`
moves to IDLE from any state.  Suspend/resume/reset-error edges are as
claimed, and a tick changes the state only from NAVIGATING (to IDLE or
NAV_ERROR). -/
theorem navigator_follows_allowed_edges (trig : ℚ → ℚ × ℚ)
    (P : TAbstractNavigatorParams) (s : NavigatorState) (op : NavOp) :
    allowedTransition s.navigationState
      (applyOp trig P s op).1.navigationState op := by
  cases op with
  | navigate params inp =>
    simp only [applyOp, allowedTransition]
    unfold navigate
    dsimp only
    split
    · split
      · simp
      · simp
    · simp
  | cancel => simp [applyOp, cancel, allowedTransition]
  | suspend =>
    simp only [applyOp, allowedTransition, suspend]
    by_cases h : s.navigationState = NAVIGATING
    · simp [h]
    · simp [h]
  | resume =>
    simp only [applyOp, allowedTransition, resume]
    by_cases h : s.navigationState = SUSPENDED
    · simp [h]
    · simp [h]
  | resetError =>
    simp only [applyOp, allowedTransition, resetNavError]
    by_cases h : s.navigationState = NAV_ERROR
    · simp [h]
    · simp [h]
  | step inp =>
    simp only [applyOp, allowedTransition]
    rcases navigationStep_state_cases P s inp with h | ⟨h1, h2⟩
    · exact Or.inr h
    · exact Or.inl ⟨h1, by tauto⟩

/-- Claim C1 (counterexample). Arrival at an *intermediary* waypoint
target: the distance to the target is below `targetAllowedDistance`,
the target is marked reached and the robot is not stopped — but the
state becomes IDLE, not NAVIGATING as the claim states
(`m_navigationState = IDLE` runs unconditionally in the reached
branch). -/
theorem intermediary_arrival_not_navigating_cex :
    arrivalIntermediaryParams.targetIsIntermediaryWaypoint = true ∧
    (navigationStep defaultAbstractNavigatorParams arrivalIntermediaryState
      arrivalIntermediaryInput).1.lastNavTargetReached = true ∧
    (∀ b, Act.stopRobot b ∉ (navigationStep defaultAbstractNavigatorParams
      arrivalIntermediaryState arrivalIntermediaryInput).2) ∧
    (navigationStep defaultAbstractNavigatorParams arrivalIntermediaryState
      arrivalIntermediaryInput).1.navigationState = IDLE ∧
    (navigationStep defaultAbstractNavigatorParams arrivalIntermediaryState
      arrivalIntermediaryInput).1.navigationState ≠ NAVIGATING := by
  refine ⟨by decide, by decide, ?_, by decide, by decide⟩
  intro b
  cases b <;> decide

/-- Claim C1 (amended). In the NAVIGATING per-tick step, whenever the
shortest distance from the target to the segment joining the current
and previous robot poses is below `targetAllowedDistance`, the
navigator marks the target reached and transitions to IDLE in *both*
cases; the robot is stopped if and only if the target is not an
intermediary waypoint. -/
theorem navStep_arrival_goes_idle
    (P : TAbstractNavigatorParams) (s s2 : NavigatorState)
    (np : TNavigationParams) (inp : TickInput)
    (hs : s.navigationState = NAVIGATING)
    (hupd : updateCurrentPoseAndSpeeds
        (if s.lastNavigationState ≠ NAVIGATING then { s with latestPoses := [] } else s)
        inp.robotTime inp.poseRead = some s2)
    (hne : s2.latestPoses ≠ [])
    (hp : s2.navigationParams = some np)
    (hreach : distLt
        (segDistSq ⟨np.target.x, np.target.y⟩ ⟨s2.curPose.x, s2.curPose.y⟩
          (secondNewest s2.latestPoses))
        np.targetAllowedDistance) :
    (navigationStep P s inp).1.navigationState = IDLE ∧
    (navigationStep P s inp).1.lastNavTargetReached = true ∧
    (np.targetIsIntermediaryWaypoint = false →
      Act.stopRobot false ∈ (navigationStep P s inp).2) ∧
    (np.targetIsIntermediaryWaypoint = true →
      ∀ b, Act.stopRobot b ∉ (navigationStep P s inp).2) := by
  obtain ⟨hd, tl, hcons⟩ := List.exists_cons_of_ne_nil hne
  simp only [navigationStep, hs]
  simp only [ne_eq, ite_not] at hupd ⊢
  rw [hs] at hupd
  rw [hupd]
  dsimp only
  rw [hcons] at hreach
  rw [hcons, hp]
  dsimp only
  rw [if_pos hreach]
  refine ⟨?_, ?_, ?_, ?_⟩
  · simp [apply_ite NavigatorState.navigationState]
  · simp [apply_ite NavigatorState.lastNavTargetReached]
  · intro h
    simp [h]
  · intro h b
    simp [h]

/-- Witness for `navStep_arrival_goes_idle` at the concrete
`arrivalFinalState`: the target is reached, the state goes IDLE and the
robot is stopped (non-intermediary target). -/
theorem navStep_arrival_goes_idle_witness :
    (navigationStep defaultAbstractNavigatorParams arrivalFinalState
      arrivalIntermediaryInput).1.navigationState = IDLE ∧
    (navigationStep defaultAbstractNavigatorParams arrivalFinalState
      arrivalIntermediaryInput).1.lastNavTargetReached = true ∧
    (arrivalFinalParams.targetIsIntermediaryWaypoint = false →
      Act.stopRobot false ∈ (navigationStep defaultAbstractNavigatorParams
        arrivalFinalState arrivalIntermediaryInput).2) ∧
    (arrivalFinalParams.targetIsIntermediaryWaypoint = true →
      ∀ b, Act.stopRobot b ∉ (navigationStep defaultAbstractNavigatorParams
        arrivalFinalState arrivalIntermediaryInput).2) :=
  navStep_arrival_goes_idle defaultAbstractNavigatorParams arrivalFinalState
    arrivalFinalState arrivalFinalParams arrivalIntermediaryInput
    (by decide) (by decide) (by decide) (by decide) (by decide)

/-- Claim C3. While the current target is an intermediary waypoint, a tick
never emits the navigation-end event, whatever the state, the inputs and
the distance to the target (both emission sites are guarded by
`!targetIsIntermediaryWaypoint`). -/
theorem no_nav_end_for_intermediary (P : TAbstractNavigatorParams)
    (s : NavigatorState) (inp : TickInput) (np : TNavigationParams)
    (hp : s.navigationParams = some np)
    (hint : np.targetIsIntermediaryWaypoint = true) :
    Act.sendNavigationEndEvent ∉ (navigationStep P s inp).2 := by
  cases hs : s.navigationState with
  | IDLE =>
    simp only [navigationStep, hs]
    split <;> simp
  | SUSPENDED =>
    simp only [navigationStep, hs]
    split <;> simp
  | NAV_ERROR =>
    simp only [navigationStep, hs]
    split <;> simp
  | NAVIGATING =>
    simp only [navigationStep, hs]
    split
    · repeat' split
      all_goals simp
    · rename_i s2 heq
      have hp2 : s2.navigationParams = some np := by
        have h := (updateCurrentPoseAndSpeeds_fields heq).2.2.2.1
        split at h <;> simpa [hp] using h
      repeat' split
      all_goals simp_all

/-- Witness for `no_nav_end_for_intermediary` at the concrete
intermediary-arrival tick (which does reach the target). -/
theorem no_nav_end_for_intermediary_witness :
    Act.sendNavigationEndEvent ∉ (navigationStep defaultAbstractNavigatorParams
      arrivalIntermediaryState arrivalIntermediaryInput).2 :=
  no_nav_end_for_intermediary defaultAbstractNavigatorParams
    arrivalIntermediaryState arrivalIntermediaryInput arrivalIntermediaryParams
    (by decide) (by decide)

/-- Claim C9. While NAVIGATING (target not yet reached): if the distance
to the target improves on the recorded minimum, the minimum and its
timestamp are updated; otherwise, when the time since the last
improvement exceeds `alarm_seems_not_approaching_target_timeout`, the
tick emits the way-blocked event and moves to NAV_ERROR without issuing
any stop command (in particular no emergency stop) in that tick. -/
theorem stall_alarm_behaviour
    (P : TAbstractNavigatorParams) (s s2 : NavigatorState)
    (np : TNavigationParams) (inp : TickInput)
    (hs : s.navigationState = NAVIGATING)
    (hupd : updateCurrentPoseAndSpeeds
        (if s.lastNavigationState ≠ NAVIGATING then { s with latestPoses := [] } else s)
        inp.robotTime inp.poseRead = some s2)
    (hne : s2.latestPoses ≠ [])
    (hp : s2.navigationParams = some np)
    (hnr : ¬ distLt
        (segDistSq ⟨np.target.x, np.target.y⟩ ⟨s2.curPose.x, s2.curPose.y⟩
          (secondNewest s2.latestPoses))
        np.targetAllowedDistance) :
    (distSqImproves
        (segDistSq ⟨np.target.x, np.target.y⟩ ⟨s2.curPose.x, s2.curPose.y⟩
          (secondNewest s2.latestPoses))
        s2.badNavAlarm_minDistTargetSq →
      (navigationStep P s inp).1.badNavAlarm_minDistTargetSq =
        some (segDistSq ⟨np.target.x, np.target.y⟩ ⟨s2.curPose.x, s2.curPose.y⟩
          (secondNewest s2.latestPoses)) ∧
      (navigationStep P s inp).1.badNavAlarm_lastMinDistTime = inp.now) ∧
    (¬ distSqImproves
        (segDistSq ⟨np.target.x, np.target.y⟩ ⟨s2.curPose.x, s2.curPose.y⟩
          (secondNewest s2.latestPoses))
        s2.badNavAlarm_minDistTargetSq →
     inp.now - s2.badNavAlarm_lastMinDistTime >
        P.alarm_seems_not_approaching_target_timeout →
      (navigationStep P s inp).1.navigationState = NAV_ERROR ∧
      Act.sendWaySeemsBlockedEvent ∈ (navigationStep P s inp).2 ∧
      ∀ b, Act.stopRobot b ∉ (navigationStep P s inp).2) := by
  obtain ⟨hd, tl, hcons⟩ := List.exists_cons_of_ne_nil hne
  simp only [navigationStep, hs]
  simp only [ne_eq, ite_not] at hupd ⊢
  rw [hs] at hupd
  rw [hupd]
  dsimp only
  rw [hcons] at hnr
  rw [hcons, hp]
  dsimp only
  rw [if_neg hnr]
  constructor
  · intro himp
    repeat' split
    all_goals
      simp_all [apply_ite NavigatorState.badNavAlarm_minDistTargetSq,
                apply_ite NavigatorState.badNavAlarm_lastMinDistTime,
                apply_ite NavigatorState.navigationState]
  · intro himp htime
    repeat' split
    all_goals
      simp_all [apply_ite NavigatorState.badNavAlarm_minDistTargetSq,
                apply_ite NavigatorState.badNavAlarm_lastMinDistTime,
                apply_ite NavigatorState.navigationState]

/-- Witness for `stall_alarm_behaviour` at the concrete `stallState`,
31 s after the last improvement with a 30 s timeout: the way-blocked
event fires, the state becomes NAV_ERROR and no stop command is sent. -/
theorem stall_alarm_behaviour_witness :
    (navigationStep defaultAbstractNavigatorParams stallState
      stallInput).1.navigationState = NAV_ERROR ∧
    Act.sendWaySeemsBlockedEvent ∈ (navigationStep defaultAbstractNavigatorParams
      stallState stallInput).2 ∧
    ∀ b, Act.stopRobot b ∉ (navigationStep defaultAbstractNavigatorParams
      stallState stallInput).2 :=
  (stall_alarm_behaviour defaultAbstractNavigatorParams stallState stallState
    stallParams stallInput (by decide) (by decide) (by decide) (by decide)
    (by decide)).2 (by decide) (by decide)

/-- The look-ahead loop never returns a `most_advanced_wp` beyond a
non-skippable waypoint `j` that the distance filter does not skip. -/
theorem scanLoop_le (WP : TWaypointsNavigatorParams) (trig : ℚ → ℚ × ℚ)
    (reachable : TPoint2D → Bool) (robotPose : TPose2D) :
    ∀ (fuel : ℕ) (wl : List TWaypointStatus) (idx most j : ℕ)
      (hj : j < wl.length),
      idx ≤ j → most ≤ j →
      (wl.get ⟨j, hj⟩).allowSkip = false →
      ¬(0 < WP.max_distance_to_allow_skip_waypoint ∧
        sqNorm (inverseComposePoint trig robotPose
          ⟨(wl.get ⟨j, hj⟩).targetX, (wl.get ⟨j, hj⟩).targetY⟩) >
          WP.max_distance_to_allow_skip_waypoint *
            WP.max_distance_to_allow_skip_waypoint) →
      (scanLoop WP trig reachable robotPose fuel wl idx most).2 ≤ j := by
  intro fuel
  induction fuel with
  | zero =>
    intro wl idx most j hj hidx hmost hns hnear
    simpa [scanLoop] using hmost
  | succ n ih =>
    intro wl idx most j hj hidx hmost hns hnear
    rw [scanLoop]
    cases hget : wl.get? idx with
    | none => exact hmost
    | some w =>
      dsimp only
      have hwj : idx = j → w = wl.get ⟨j, hj⟩ := by
        intro hej
        subst hej
        rw [List.get?_eq_get hj] at hget
        exact ((Option.some.injEq _ _).mp hget).symm
      have key : ∀ (wl2 : List TWaypointStatus) (m2 : ℕ), idx ≠ j →
          wl2.length = wl.length →
          (∀ (hj2 : j < wl2.length), wl2.get ⟨j, hj2⟩ = wl.get ⟨j, hj⟩) →
          m2 ≤ j →
          (scanLoop WP trig reachable robotPose n wl2 (idx + 1) m2).2 ≤ j := by
        intro wl2 m2 hne hlen heq hm2
        have hj2 : j < wl2.length := by omega
        refine ih wl2 (idx + 1) m2 j hj2 (by omega) hm2 ?_ ?_
        · rw [heq hj2]
          exact hns
        · rw [heq hj2]
          exact hnear
      split
      · rename_i hfar
        refine key wl most ?_ rfl (fun _ => rfl) hmost
        intro hej
        apply hnear
        rw [← hwj hej]
        exact hfar
      · rename_i hnfar
        by_cases hskip : w.allowSkip = true
        · rw [if_neg (by simp [hskip])]
          have hne : idx ≠ j := by
            intro hej
            rw [hwj hej, hns] at hskip
            exact Bool.noConfusion hskip
          have hq : ∀ (wl2 : List TWaypointStatus), wl2.get? j = wl.get? j →
              ∀ (hj2 : j < wl2.length), wl2.get ⟨j, hj2⟩ = wl.get ⟨j, hj⟩ := by
            intro wl2 hq hj2
            have h1 := List.get?_eq_get hj2
            have h2 := List.get?_eq_get hj
            rw [h1, h2] at hq
            exact (Option.some.injEq _ _).mp hq
          refine key _ _ hne ?_ (hq _ ?_) ?_
          · split <;> simp
          · split
            · simp [List.get?_eq_getElem?, List.getElem?_set_ne hne]
            · rfl
          · split
            · omega
            · exact hmost
        · rw [if_pos (by simp [hskip])]
          dsimp only
          split
          · omega
          · exact hmost

/-- Every waypoint-reached event emitted by `markReachedRange` concerns
an index in `[first, stop)`. -/
theorem markReachedRange_mem_range (wl : List TWaypointStatus) (first stop k : ℕ)
    (h : Act.sendWaypointReachedEvent k ∈ (markReachedRange wl first stop).2) :
    k ∈ List.range' first (stop - first) := by
  unfold markReachedRange at h
  suffices hgen : ∀ (L : List ℕ) (acc : List TWaypointStatus × List Act),
      Act.sendWaypointReachedEvent k ∈
        (L.foldl (fun acc k =>
          match acc.1.get? k with
          | some w => (acc.1.set k { w with reached := true },
              acc.2 ++ [Act.sendWaypointReachedEvent k])
          | none => acc) acc).2 →
      Act.sendWaypointReachedEvent k ∈ acc.2 ∨ k ∈ L by
    rcases hgen (List.range' first (stop - first)) (wl, []) h with h1 | h1
    · simp at h1
    · exact h1
  intro L
  induction L with
  | nil =>
    intro acc h
    exact Or.inl h
  | cons a L ihL =>
    intro acc h
    rw [List.foldl_cons] at h
    rcases ihL _ h with h1 | h1
    · cases hga : acc.1.get? a with
      | none =>
        rw [hga] at h1
        exact Or.inl h1
      | some w =>
        rw [hga] at h1
        dsimp only at h1
        rcases List.mem_append.mp h1 with h2 | h2
        · exact Or.inl h2
        · simp only [List.mem_singleton, Act.sendWaypointReachedEvent.injEq] at h2
          subst h2
          exact Or.inr (List.mem_cons_self _ _)
    · exact Or.inr (List.mem_cons_of_mem _ h1)

/-- Claim C7 (amended). During the per-tick look-ahead scan, for every
waypoint `j` with `allow_skip = false` at or after the current goal
index *that the `max_distance_to_allow_skip_waypoint` filter does not
skip* (no positive limit, or the waypoint within the limit), the goal
index chosen at scan end is at most `j` and every waypoint marked
reached by the skip logic lies strictly before `j`.  (The distance
filter's `continue` runs before the `allow_skip` check, so a
non-skippable waypoint beyond the limit *can* be crossed — see the
counterexample.) -/
theorem waypointScanAdvance_noskip_bound
    (WP : TWaypointsNavigatorParams) (trig : ℚ → ℚ × ℚ)
    (reachable : TPoint2D → Bool) (robotPose : TPose2D)
    (wps : TWaypointStatusSequence) (g j : ℕ) (hj : j < wps.waypoints.length)
    (hgj : g ≤ j)
    (hns : (wps.waypoints.get ⟨j, hj⟩).allowSkip = false)
    (hnear : ¬(0 < WP.max_distance_to_allow_skip_waypoint ∧
        sqNorm (inverseComposePoint trig robotPose
          ⟨(wps.waypoints.get ⟨j, hj⟩).targetX, (wps.waypoints.get ⟨j, hj⟩).targetY⟩) >
          WP.max_distance_to_allow_skip_waypoint *
            WP.max_distance_to_allow_skip_waypoint)) :
    (waypointScanAdvance WP trig reachable robotPose wps g).1.waypoint_index_current_goal ≤ (j : ℤ) ∧
    ∀ k, Act.sendWaypointReachedEvent k ∈
      (waypointScanAdvance WP trig reachable robotPose wps g).2 → k < j := by
  have hmost := scanLoop_le WP trig reachable robotPose
    (wps.waypoints.length - g) wps.waypoints g g j hj hgj hgj hns hnear
  unfold waypointScanAdvance
  rcases hsl : scanLoop WP trig reachable robotPose
      (wps.waypoints.length - g) wps.waypoints g g with ⟨wl, most⟩
  rw [hsl] at hmost
  dsimp only at hmost ⊢
  rcases hmr : markReachedRange wl g most with ⟨wl2, acts⟩
  dsimp only
  constructor
  · exact_mod_cast hmost
  · intro k hk
    have := markReachedRange_mem_range wl g most k (by rw [hmr]; exact hk)
    have hmem := List.mem_range'_1.mp this
    omega

/-- Witness for `waypointScanAdvance_noskip_bound` on the concrete
three-waypoint scenario sequence with goal 0 and the final waypoint
(index 2) non-skippable. -/
theorem waypointScanAdvance_noskip_bound_witness :
    (waypointScanAdvance scenarioWpParams trigZero (fun _ => true) ⟨0, 0, 0⟩
      (navigateWaypoints ⟨initialNavigatorState, emptyWaypointStatusSequence⟩
        scenarioWaypoints).wps 0).1.waypoint_index_current_goal ≤ (2 : ℤ) ∧
    ∀ k, Act.sendWaypointReachedEvent k ∈
      (waypointScanAdvance scenarioWpParams trigZero (fun _ => true) ⟨0, 0, 0⟩
        (navigateWaypoints ⟨initialNavigatorState, emptyWaypointStatusSequence⟩
          scenarioWaypoints).wps 0).2 → k < 2 :=
  waypointScanAdvance_noskip_bound scenarioWpParams trigZero (fun _ => true)
    ⟨0, 0, 0⟩
    (navigateWaypoints ⟨initialNavigatorState, emptyWaypointStatusSequence⟩
      scenarioWaypoints).wps 0 2 (by decide) (by decide) (by decide) (by decide)

/-- Claim C7 (counterexample). With a 5 m skip-distance limit, a
non-skippable waypoint at (10,0) — beyond the limit — and a confirmed
reachable skippable waypoint at (1,0) behind it, the scan advances the
goal from 0 to 1, crossing the non-skippable waypoint 0 and marking it
reached: the distance-filter `continue` bypasses the `allow_skip`
break. -/
theorem waypointScanAdvance_crosses_far_noskip_cex :
    ((farNoSkipSeq.waypoints.get? 0).map (fun w => w.allowSkip)) = some false ∧
    (waypointScanAdvance farNoSkipParams trigZero (fun _ => true) ⟨0, 0, 0⟩
      farNoSkipSeq 0).1.waypoint_index_current_goal = 1 ∧
    Act.sendWaypointReachedEvent 0 ∈
      (waypointScanAdvance farNoSkipParams trigZero (fun _ => true) ⟨0, 0, 0⟩
        farNoSkipSeq 0).2 := by
  decide

/-- Witness for `impl_waypoint_is_reachable_iff`: one PTG with fresh
TP-obstacle data `[1, 1]` reaches the point (1,0), inverse-mapped to
direction 0 at normalised distance 1/4 with `1 > 1.01·(1/4)`. -/
theorem impl_waypoint_is_reachable_iff_witness :
    impl_waypoint_is_reachable [unitPTG] [[1, 1]] (some 0) 0 ⟨1, 0⟩ = true :=
  (impl_waypoint_is_reachable_iff [unitPTG] [[1, 1]] 0 0 ⟨1, 0⟩).1.mpr
    ⟨by norm_num, by decide,
     ⟨(unitPTG, [1, 1]), by simp, rfl, 0, 1 / 4, rfl, by decide⟩⟩
